import Mathlib

/-!
Verification development for the value-adaptation layer of psycopg2-ctypes
(`psycopg2ct/_impl/adapters.py` and the adapter registrations performed by
`psycopg2ct/__init__.py`).

The embedding models Python 2 byte strings as `List Char` (one `Char` per
byte), Python values as the inductive `PyVal`, the libpq escaping entry
points as abstract functions carried by an `Env` (the connection-less
entry points and the compile-time `PG_VERSION` constant) and by a `Conn`
(the connection-aware entry points, the `_equote` flag and the text
encoding).  Fallible Python code is modelled with `Except PyErr`.
-/

set_option autoImplicit false

namespace PsycoAdapters

/-- A Python 2 byte string: one `Char` per byte. -/
abbrev Str := List Char

/-- Convert a Lean string literal to the byte-string model. -/
def bstr (s : String) : Str := s.toList

/-- Python's `sep.join(parts)` for the separator `", "` as used by
`List.getquoted` (`b", ".join(quoted)`). -/
def joinComma : List Str → Str
  | [] => []
  | [s] => s
  | s :: rest => s ++ bstr ", " ++ joinComma rest

/-- Python's `value.startswith('-')` on a byte string. -/
def startswithDash : Str → Bool
  | '-' :: _ => true
  | _ => false

/-- The decimal digit character for `d` (`d < 10` at every use site). -/
def dig (d : Nat) : Char := Char.ofNat (48 + d)

/-- Fuel-driven accumulator loop producing the decimal digits of `n`,
most significant first.  Mirrors the standard division/modulus digit
extraction used by CPython's integer rendering. -/
def natDigitsCore : Nat → Nat → Str → Str
  | 0, _, acc => acc
  | fuel + 1, n, acc =>
    let acc2 := dig (n % 10) :: acc
    if n < 10 then acc2 else natDigitsCore fuel (n / 10) acc2

/-- Decimal rendering of a natural number (`str(n)` in Python for a
non-negative value). -/
def natDigits (n : Nat) : Str := natDigitsCore (n + 1) n []

/-- Models CPython's `str()` of an `int`/`long`: the decimal digits,
preceded by `-` for a negative value (Python 2 `str` of a `long` carries
no trailing `L`; only `repr` does). -/
def intStr : Int → Str
  | Int.ofNat n => natDigits n
  | Int.negSucc n => '-' :: natDigits (n + 1)

/-- The IEEE double wrapped by the `Float` formatter, as consumed by
`Float.getquoted`: the source only inspects `math.isnan`, `math.isinf`,
the sign of an infinity, and `repr(self._wrapped)`.  A finite float is
therefore carried as its CPython `repr` string, which CPython guarantees
to be the shortest decimal form that round-trips to the same double
(for a negative double it begins with `-`). -/
inductive PyFloat where
  | nan
  | inf (positive : Bool)
  | finite (rep : Str)
deriving DecidableEq

/-- A `decimal.Decimal` as consumed by `Decimal.getquoted`: the source
only calls `is_finite()` and `str()`, so the value is carried as that
pair (`str` is the canonical string form of the decimal). -/
structure PyDecimal where
  is_finite : Bool
  str : Str
deriving DecidableEq

/-- A Python 2 string value: a byte string (`str`) or a text string
(`unicode`). -/
inductive PyStr where
  | bytes (s : Str)
  | uni (s : Str)
deriving DecidableEq

/-- The capability tag (protocol) of the registry key.  The source uses
the class `ISQLQuote` as the default tag of `adapt` and of every seeded
entry. -/
inductive Proto where
  | isqlquote
  | other (tag : String)
deriving DecidableEq

/-- The adapter classes of `adapters.py` (plus the two registered from
`psycopg2ct/__init__.py`, which live in `extensions`, and a stand-in for
application-registered classes).  `AsIs` and the abstract `ISQLQuote`
are never registered and are omitted. -/
inductive AdapterClass where
  | booleanC
  | binaryC
  | dateTimeC
  | decimalC
  | floatC
  | intC
  | listC
  | longC
  | quotedStringC
  | noneAdapterC
  | custom (tag : String) (prep : Bool)
deriving DecidableEq

/-- The Python exceptions this layer can surface. -/
inductive PyErr where
  | programmingError (msg : Str)
  | valueError (msg : Str)
  | typeError (msg : Str)
  | dataError (msg : Str)
  | recursionError
deriving DecidableEq

/-- A Python type as consumed by `adapt`: its `__name__` and its full
method-resolution order (`mro()`, the type itself first). -/
structure PyType where
  name : String
  mro : List String

/-- A Python value.  `obj` is an application-defined instance carrying
its type and, optionally, a `__conform__` hook; the hook receives the
requested protocol and yields an adapter instance, modelled as the pair
of its class and its wrapped value. -/
inductive PyVal where
  | none
  | bool (b : Bool)
  | int (i : Int)
  | long (i : Int)
  | float (f : PyFloat)
  | dec (d : PyDecimal)
  | pystr (s : PyStr)
  | list (xs : List PyVal)
  | obj (ty : PyType) (conform : Option (Proto → AdapterClass × PyVal))

/-- `type(value)` for the modelled values.  The method-resolution orders
are the CPython 2 ones (`bool` derives from `int`; `str` and `unicode`
derive from `basestring`). -/
def typeOf : PyVal → PyType
  | .none => ⟨"NoneType", ["NoneType", "object"]⟩
  | .bool _ => ⟨"bool", ["bool", "int", "object"]⟩
  | .int _ => ⟨"int", ["int", "object"]⟩
  | .long _ => ⟨"long", ["long", "object"]⟩
  | .float _ => ⟨"float", ["float", "object"]⟩
  | .dec _ => ⟨"Decimal", ["Decimal", "object"]⟩
  | .pystr (.bytes _) => ⟨"str", ["str", "basestring", "object"]⟩
  | .pystr (.uni _) => ⟨"unicode", ["unicode", "basestring", "object"]⟩
  | .list _ => ⟨"list", ["list", "object"]⟩
  | .obj t _ => t

/-- `getattr(value, '__conform__', None)` followed by the call
`conform(proto)`: `some` result exactly when the value exposes the
hook. -/
def conformOf : PyVal → Proto → Option (AdapterClass × PyVal)
  | .obj _ (some f), proto => some (f proto)
  | _, _ => Option.none

/-- The `adapters` dict, keyed like the source by (type, protocol);
types are identified by name.  Python dict update is modelled by
prepending, with `regFind` returning the first (most recent) entry. -/
abbrev Registry := List ((String × Proto) × AdapterClass)

/-- Dictionary lookup in the registry. -/
def regFind : Registry → String × Proto → Option AdapterClass
  | [], _ => Option.none
  | (k, c) :: rest, key => if k = key then some c else regFind rest key

/-- The `for subtype in obj_type.mro()[1:]` loop of `adapt`: return the
first registered match along the ancestor list. -/
def mroLookup (reg : Registry) (proto : Proto) : List String → Option AdapterClass
  | [] => Option.none
  | t :: rest =>
    match regFind reg (t, proto) with
    | some c => some c
    | Option.none => mroLookup reg proto rest

/-- `adapt(value, proto=ISQLQuote)` (the unused `alt` parameter is
dropped): consult `__conform__`, then the exact registry entry, then the
ancestor chain `mro()[1:]`, and otherwise raise
`ProgrammingError("can't adapt type '%s'")`. -/
def adapt (reg : Registry) (v : PyVal) (proto : Proto) :
    Except PyErr (AdapterClass × PyVal) :=
  match conformOf v proto with
  | some a => .ok a
  | Option.none =>
    let t := typeOf v
    match regFind reg (t.name, proto) with
    | some c => .ok (c, v)
    | Option.none =>
      match mroLookup reg proto t.mro.tail with
      | some c => .ok (c, v)
      | Option.none =>
        .error (.programmingError (bstr ("can't adapt type '" ++ t.name ++ "'")))

/-- Modelled from the spec: `register_adapter` lives in
`psycopg2ct/extensions`, outside the sources at hand; per §4.2 it
"simply overwrites/inserts the `(type, capability)` entry", realised
here by prepending (the dict lookup takes the most recent entry). -/
def register_adapter (reg : Registry) (tyName : String) (cls : AdapterClass) :
    Registry :=
  ((tyName, Proto.isqlquote), cls) :: reg

/-- The `built_in_adapters` table of `adapters.py` for a Python 2.7
interpreter (the branch the source selects: `iteritems`, `xrange`,
`buffer` and `unicode` all exist only there). -/
def builtInAdapters : List (String × AdapterClass) :=
  [("bool", .booleanC), ("list", .listC), ("bytearray", .binaryC),
   ("float", .floatC), ("date", .dateTimeC), ("datetime", .dateTimeC),
   ("time", .dateTimeC), ("timedelta", .dateTimeC), ("Decimal", .decimalC),
   ("buffer", .binaryC), ("int", .intC), ("long", .longC),
   ("str", .quotedStringC), ("unicode", .quotedStringC),
   ("memoryview", .binaryC)]

/-- The module-level `adapters` dict right after `adapters.py` is
imported: every built-in entry seeded under the `ISQLQuote` protocol. -/
def adaptersSeed : Registry :=
  builtInAdapters.map (fun p => ((p.1, Proto.isqlquote), p.2))

/-- The registry after `psycopg2ct/__init__.py` additionally runs
`register_adapter(tuple, SQL_IN)` and
`register_adapter(type(None), NoneAdapter)` (both classes live in
`extensions`; `SQL_IN` is modelled as an opaque application class). -/
def defaultRegistry : Registry :=
  register_adapter (register_adapter adaptersSeed "tuple" (.custom "SQL_IN" true))
    "NoneType" .noneAdapterC

/-- A live connection as consumed by the adapters: the
`standard_conforming_strings`-derived `_equote` flag, the text-encoding
conversion used by `ensure_bytes`, and the connection-aware libpq escape
entry points (`PQescapeStringConn` also reports an error code). -/
structure Conn where
  equote : Bool
  encode : Str → Str
  escapeStringConn : Str → Str × Int
  escapeByteaConn : Str → Str

/-- The process environment: the compile-time `PG_VERSION` constant and
the connection-less libpq escape entry points, plus the default encoding
used by `util.ensure_bytes` for `unicode` input. -/
structure Env where
  pgVersion : Nat
  PQescapeString : Str → Str
  PQescapeBytea : Str → Str
  utilEncode : Str → Str

/-- `connection.ensure_bytes`: modelled from the spec, which describes
the connection binding as exposing "a text-encoding setting used to
convert native text into bytes before escaping" (the module itself is
outside the sources at hand) — a byte string passes through unchanged, a
text string is encoded with the connection's encoding. -/
def Conn.ensure_bytes (c : Conn) : PyStr → Str
  | .bytes s => s
  | .uni s => c.encode s

/-- `util.ensure_bytes`: modelled from the spec (the `util` module is
outside the sources at hand) — the connection-less fallback conversion,
encoding text with a default encoding. -/
def utilEnsureBytes (env : Env) : PyStr → Str
  | .bytes s => s
  | .uni s => env.utilEncode s

/-- `_BaseAdapter._ensure_bytes`: the connection's conversion when a
connection is bound, else the `util` fallback. -/
def ensure_bytes (env : Env) (conn : Option Conn) (s : PyStr) : Str :=
  match conn with
  | some c => c.ensure_bytes s
  | Option.none => utilEnsureBytes env s

/-- `self._conn and self._conn._equote` as used by `Binary.getquoted`
and `QuotedString.getquoted`. -/
def equoteOf : Option Conn → Bool
  | some c => c.equote
  | Option.none => false

/-- Python truthiness of the modelled values, as consumed by
`Boolean.getquoted` (`b'true' if self._wrapped else b'false'`).  Only
the `bool` case is exercised by any claim; the numeric-zero tests on the
string-carried `float`/`Decimal` cases compare the canonical renderings
of zero. -/
def pyTruthy : PyVal → Bool
  | .none => false
  | .bool b => b
  | .int i => i ≠ 0
  | .long i => i ≠ 0
  | .float .nan => true
  | .float (.inf _) => true
  | .float (.finite r) => ¬(r = bstr "0.0" ∨ r = bstr "-0.0")
  | .dec d => d.str ≠ bstr "0"
  | .pystr (.bytes s) => s ≠ []
  | .pystr (.uni s) => s ≠ []
  | .list xs => ¬xs.isEmpty
  | .obj _ _ => true

/-- Python's `str()` on the modelled values, as consumed by
`Int.getquoted`/`Long.getquoted` (`str(self._wrapped)`).  Only the
`int`/`long` cases are exercised by any claim; the container and
instance cases are left as documented placeholders, unreachable from
every claim. -/
def pyStr : PyVal → Str
  | .none => bstr "None"
  | .bool true => bstr "True"
  | .bool false => bstr "False"
  | .int i => intStr i
  | .long i => intStr i
  | .float f =>
    match f with
    | .nan => bstr "nan"
    | .inf true => bstr "inf"
    | .inf false => bstr "-inf"
    | .finite r => r
  | .dec d => d.str
  | .pystr (.bytes s) => s
  | .pystr (.uni s) => s
  | .list _ => bstr "<list>"
  | .obj t _ => bstr ("<" ++ t.name ++ " instance>")

/-- `Boolean.getquoted`. -/
def Boolean.getquoted (_env : Env) (_conn : Option Conn) (w : PyVal) :
    Except PyErr Str :=
  .ok (if pyTruthy w then bstr "true" else bstr "false")

/-- `Int.getquoted`: `str(self._wrapped)` with one space prepended in
front of a leading minus sign, converted with `_ensure_bytes`. -/
def Int.getquoted (env : Env) (conn : Option Conn) (w : PyVal) :
    Except PyErr Str :=
  let value := pyStr w
  let value2 := if startswithDash value then ' ' :: value else value
  .ok (ensure_bytes env conn (.bytes value2))

/-- `Long.getquoted`: textually the same body as `Int.getquoted` in the
source. -/
def Long.getquoted (env : Env) (conn : Option Conn) (w : PyVal) :
    Except PyErr Str :=
  let value := pyStr w
  let value2 := if startswithDash value then ' ' :: value else value
  .ok (ensure_bytes env conn (.bytes value2))

/-- `Float.getquoted`: `float(self._wrapped)` then the
`isnan`/`isinf` special cases, else `repr(self._wrapped)` with the
sign-space rule and `_ensure_bytes`.  An `int`/`long` wrapped value
converts to a finite double and `repr`s to its decimal digits; any
non-numeric wrapped value makes `float()` raise `TypeError`. -/
def Float.getquoted (env : Env) (conn : Option Conn) (w : PyVal) :
    Except PyErr Str :=
  match w with
  | .float PyFloat.nan => .ok (bstr "'NaN'::float")
  | .float (PyFloat.inf positive) =>
    .ok (if positive then bstr "'Infinity'::float" else bstr "'-Infinity'::float")
  | .float (PyFloat.finite r) =>
    let value2 := if startswithDash r then ' ' :: r else r
    .ok (ensure_bytes env conn (.bytes value2))
  | .int i =>
    let r := intStr i
    let value2 := if startswithDash r then ' ' :: r else r
    .ok (ensure_bytes env conn (.bytes value2))
  | .long i =>
    let r := intStr i
    let value2 := if startswithDash r then ' ' :: r else r
    .ok (ensure_bytes env conn (.bytes value2))
  | _ => .error (.typeError (bstr "float() argument must be a string or a number"))

/-- `Decimal.getquoted`: the finite branch renders `str(self._wrapped)`
with the sign-space rule through `_ensure_bytes`; every non-finite
decimal yields the verbatim bytes `'NaN'::numeric`. -/
def Decimal.getquoted (env : Env) (conn : Option Conn) (w : PyVal) :
    Except PyErr Str :=
  match w with
  | .dec d =>
    if d.is_finite then
      let value2 := if startswithDash d.str then ' ' :: d.str else d.str
      .ok (ensure_bytes env conn (.bytes value2))
    else
      .ok (bstr "'NaN'::numeric")
  | _ => .error (.typeError (bstr "is_finite"))

/-- The escaped payload computed inside `QuotedString.getquoted`:
`PQescapeStringConn` when a connection is bound and
`PG_VERSION >= 0x080104`, else `PQescapeString` (the reported error code
of the former is the second component of its result). -/
def qsEscapedPayload (env : Env) (conn : Option Conn) (s : Str) : Str :=
  match conn with
  | some c =>
    if 0x080104 ≤ env.pgVersion then (c.escapeStringConn s).1
    else env.PQescapeString s
  | Option.none => env.PQescapeString s

/-- `QuotedString.getquoted`: convert the wrapped string with
`_ensure_bytes`, escape it (the error code of `PQescapeStringConn` is
received into a fresh `c_int` and never read by the source), and wrap
the escaped bytes in `E'...'` when `self._conn and self._conn._equote`,
else in `'...'`.  The `2*length+1` output buffer and its trailing NUL
are memory-level details below this embedding; the escape functions
yield the escaped payload directly. -/
def QuotedString.getquoted (env : Env) (conn : Option Conn) (w : PyVal) :
    Except PyErr Str :=
  match w with
  | .pystr sv =>
    let string := ensure_bytes env conn sv
    let escaped := qsEscapedPayload env conn string
    if equoteOf conn then .ok (bstr "E'" ++ escaped ++ bstr "'")
    else .ok (bstr "'" ++ escaped ++ bstr "'")
  | _ => .error (.typeError (bstr "getquoted argument"))

/-- The escaped payload computed inside `Binary.getquoted`:
`PQescapeByteaConn` when a connection is bound and
`PG_VERSION >= 0x080104`, else `PQescapeBytea`.  The `to_length`
out-parameter, the trim of the trailing NUL terminator
(`data_pointer[:to_length.value - 1]`) and `PQfreemem` are memory-level
details below this embedding. -/
def byteaPayload (env : Env) (conn : Option Conn) (s : Str) : Str :=
  match conn with
  | some c =>
    if 0x080104 ≤ env.pgVersion then c.escapeByteaConn s
    else env.PQescapeBytea s
  | Option.none => env.PQescapeBytea s

/-- `Binary.getquoted`: `None` yields `NULL`; otherwise the escaped
bytes are wrapped in `E'...'::bytea` when
`self._conn and self._conn._equote`, else in `'...'::bytea`.  The byte
carrier is the Python 2 `str` value. -/
def Binary.getquoted (env : Env) (conn : Option Conn) (w : PyVal) :
    Except PyErr Str :=
  match w with
  | .none => .ok (bstr "NULL")
  | .pystr (.bytes s) =>
    let data := byteaPayload env conn s
    if equoteOf conn then .ok (bstr "E'" ++ data ++ bstr "'::bytea")
    else .ok (bstr "'" ++ data ++ bstr "'::bytea")
  | _ => .error (.typeError (bstr "buffer expected"))

/-- Which adapter classes define `prepare` (for the others the
`adapter.prepare(conn)` call in `_getquoted` raises `AttributeError`,
which `_getquoted` swallows, leaving `_conn` unset).  `NoneAdapter`
is modelled without `prepare`; it is unreachable through `_getquoted`
because `None` short-circuits (see `pyGetquoted`). -/
def hasPrepare : AdapterClass → Bool
  | .binaryC => true
  | .listC => true
  | .quotedStringC => true
  | .custom _ p => p
  | _ => false

/-- The sequential element-quoting loop of `List.getquoted`
(`for i in xrange(length): quoted[i] = _getquoted(...)`): the first
raised exception propagates. -/
def mapMQuote (f : PyVal → Except PyErr Str) : List PyVal → Except PyErr (List Str)
  | [] => .ok []
  | x :: rest =>
    match f x with
    | .error e => .error e
    | .ok q =>
      match mapMQuote f rest with
      | .error e => .error e
      | .ok qs => .ok (q :: qs)

/-- `List.getquoted`, parameterised by the element-quoting function
(`_getquoted(obj, self._conn)` in the source): the empty sequence yields
the bytes `'{}'`, a non-empty one yields
`ARRAY[...]` with the quoted elements joined by `", "`. -/
def List.getquotedF (elemQ : PyVal → Except PyErr Str) (xs : List PyVal) :
    Except PyErr Str :=
  if xs.length = 0 then .ok (bstr "'\x7b\x7d'")
  else
    match mapMQuote elemQ xs with
    | .error e => .error e
    | .ok qs => .ok (bstr "ARRAY[" ++ joinComma qs ++ bstr "]")

/-- `_getquoted(param, conn)`: `None` yields the literal `NULL` before
any dispatch; otherwise `adapt(param)` (default protocol), then
`prepare(conn)` guarded by the `AttributeError` pass, then
`getquoted()`.  The fuel argument bounds the list-element recursion
depth (CPython's recursion limit); the `DateTime` class and opaque
application classes are never dispatched by any claim. -/
def pyGetquoted : Nat → Env → Registry → Option Conn → PyVal → Except PyErr Str
  | 0, _, _, _, _ => .error .recursionError
  | fuel + 1, env, reg, conn, v =>
    match v with
    | .none => .ok (bstr "NULL")
    | _ =>
      match adapt reg v .isqlquote with
      | .error e => .error e
      | .ok (cls, w) =>
        let aconn := if hasPrepare cls then conn else Option.none
        match cls, w with
        | .listC, .list xs => List.getquotedF (pyGetquoted fuel env reg aconn) xs
        | .listC, _ => .error (.typeError (bstr "len() of unsized object"))
        | .booleanC, _ => Boolean.getquoted env aconn w
        | .intC, _ => Int.getquoted env aconn w
        | .longC, _ => Long.getquoted env aconn w
        | .floatC, _ => Float.getquoted env aconn w
        | .decimalC, _ => Decimal.getquoted env aconn w
        | .binaryC, _ => Binary.getquoted env aconn w
        | .quotedStringC, _ => QuotedString.getquoted env aconn w
        | .noneAdapterC, _ => .ok (bstr "NULL")
        | .dateTimeC, _ => .error (.typeError (bstr "temporal values are modelled separately"))
        | .custom _ _, _ => .error (.typeError (bstr "unmodelled application adapter"))

/-- A constructed temporal value as wrapped by the `DateTime` formatter
returned from the construction helpers.  The time-zone argument is an
opaque tag; it takes no part in validation. -/
inductive Temporal where
  | dateT (y m d : Int)
  | timeT (h mi s : Int) (tz : Option String)
  | datetimeT (y mo d h mi s : Int) (tz : Option String)
deriving DecidableEq

/-- Gregorian leap year, as in CPython's `datetime` module. -/
def isLeap (y : Int) : Bool := y % 4 = 0 ∧ (y % 100 ≠ 0 ∨ y % 400 = 0)

/-- Days in a month (`m` between 1 and 12 at every use site), as in
CPython's `datetime` module. -/
def daysInMonth (y m : Int) : Int :=
  if m = 2 then (if isLeap y then 29 else 28)
  else if m = 4 ∨ m = 6 ∨ m = 9 ∨ m = 11 then 30
  else 31

/-- Modelled from CPython's `datetime.date(year, month, day)`
constructor (standard library, outside this repository): the field
checks in CPython's order, each failure raising `ValueError`. -/
def datetimeDate (y m d : Int) : Except PyErr (Int × Int × Int) :=
  if y < 1 ∨ 9999 < y then .error (.valueError (bstr "year is out of range"))
  else if m < 1 ∨ 12 < m then .error (.valueError (bstr "month must be in 1..12"))
  else if d < 1 ∨ daysInMonth y m < d then
    .error (.valueError (bstr "day is out of range for month"))
  else .ok (y, m, d)

/-- Modelled from CPython's `datetime.time(hour, minute, second, ...)`
constructor (standard library, outside this repository). -/
def datetimeTime (h mi s : Int) : Except PyErr (Int × Int × Int) :=
  if h < 0 ∨ 23 < h then .error (.valueError (bstr "hour must be in 0..23"))
  else if mi < 0 ∨ 59 < mi then .error (.valueError (bstr "minute must be in 0..59"))
  else if s < 0 ∨ 59 < s then .error (.valueError (bstr "second must be in 0..59"))
  else .ok (h, mi, s)

/-- The `Date(year, month, day)` helper: construct `datetime.date` (any
`ValueError` it raises propagates unhandled) and wrap it in the
`DateTime` formatter, modelled as the wrapped temporal value. -/
def Date (y m d : Int) : Except PyErr Temporal :=
  match datetimeDate y m d with
  | .error e => .error e
  | .ok _ => .ok (.dateT y m d)

/-- The `Time(hour, minutes, seconds, tzinfo=None)` helper. -/
def Time (h mi s : Int) (tz : Option String) : Except PyErr Temporal :=
  match datetimeTime h mi s with
  | .error e => .error e
  | .ok _ => .ok (.timeT h mi s tz)

/-- The `Timestamp(year, month, day, hour, minutes, seconds,
tzinfo=None)` helper: `datetime.datetime` validates the date fields and
then the time fields. -/
def Timestamp (y mo d h mi s : Int) (tz : Option String) : Except PyErr Temporal :=
  match datetimeDate y mo d with
  | .error e => .error e
  | .ok _ =>
    match datetimeTime h mi s with
    | .error e => .error e
    | .ok _ => .ok (.datetimeT y mo d h mi s tz)

/-- Whether a helper outcome is a raised `DataError`. -/
def isDataErrT : Except PyErr Temporal → Bool
  | .error (.dataError _) => true
  | _ => false

/-- A concrete environment for witnesses: a modern server version and
identity conversions. -/
def envTriv : Env :=
  { pgVersion := 0x090100
    PQescapeString := fun s => s
    PQescapeBytea := fun s => s
    utilEncode := fun s => s }

/-- A concrete connection whose connection-aware string escape reports
the non-zero error code 1 while producing the buffer content `BAD`. -/
def connErr : Conn :=
  { equote := false
    encode := fun s => s
    escapeStringConn := fun _ => (bstr "BAD", 1)
    escapeByteaConn := fun s => s }

/-! Helper lemmas. -/

theorem ensure_bytes_bytes (env : Env) (conn : Option Conn) (s : Str) :
    ensure_bytes env conn (.bytes s) = s := by
  cases conn <;> rfl

theorem dig_ne_dash : ∀ d, d < 10 → dig d ≠ '-' := by decide

theorem natDigitsCore_succ (fuel n : Nat) (acc : Str) :
    natDigitsCore (fuel + 1) n acc =
      if n < 10 then dig (n % 10) :: acc
      else natDigitsCore fuel (n / 10) (dig (n % 10) :: acc) := rfl

theorem natDigitsCore_head (fuel : Nat) :
    ∀ n acc, 0 < fuel →
      ∃ d rest, natDigitsCore fuel n acc = dig d :: rest ∧ d < 10 := by
  induction fuel with
  | zero => intro n acc h; exact absurd h (by simp)
  | succ f ih =>
    intro n acc _
    by_cases hn : n < 10
    · exact ⟨n % 10, acc, by rw [natDigitsCore_succ, if_pos hn],
        Nat.mod_lt _ (by omega)⟩
    · cases f with
      | zero =>
        exact ⟨n % 10, acc, by rw [natDigitsCore_succ, if_neg hn]; rfl,
          Nat.mod_lt _ (by omega)⟩
      | succ f2 =>
        obtain ⟨d, rest, heq, hd⟩ :=
          ih (n / 10) (dig (n % 10) :: acc) (Nat.succ_pos f2)
        exact ⟨d, rest, by rw [natDigitsCore_succ, if_neg hn]; exact heq, hd⟩

theorem startswithDash_cons_ne (c : Char) (rest : Str) (h : c ≠ '-') :
    startswithDash (c :: rest) = false := by
  unfold startswithDash
  split
  · simp_all
  · rfl

theorem startswithDash_natDigits (n : Nat) :
    startswithDash (natDigits n) = false := by
  obtain ⟨d, rest, heq, hd⟩ := natDigitsCore_head (n + 1) n [] (Nat.succ_pos n)
  unfold natDigits
  rw [heq]
  exact startswithDash_cons_ne _ _ (dig_ne_dash d hd)

theorem intStr_neg (i : Int) (h : i < 0) :
    intStr i = '-' :: natDigits i.natAbs := by
  cases i with
  | ofNat n => exact absurd h (Int.not_lt.mpr (Int.ofNat_nonneg n))
  | negSucc n => rfl

theorem intStr_nonneg (i : Int) (h : 0 ≤ i) :
    intStr i = natDigits i.toNat := by
  cases i with
  | ofNat n => rfl
  | negSucc n => exact absurd h (Int.not_le.mpr (Int.negSucc_lt_zero n))

theorem mroLookup_first (reg : Registry) (proto : Proto) (pre : List String)
    (ty : String) (post : List String) (c : AdapterClass)
    (hpre : ∀ t2 ∈ pre, regFind reg (t2, proto) = Option.none)
    (hty : regFind reg (ty, proto) = some c) :
    mroLookup reg proto (pre ++ ty :: post) = some c := by
  induction pre with
  | nil => simp [mroLookup, hty]
  | cons p rest ih =>
    have hp : regFind reg (p, proto) = Option.none := hpre p (by simp)
    have hrest : ∀ t2 ∈ rest, regFind reg (t2, proto) = Option.none :=
      fun t2 ht => hpre t2 (by simp [ht])
    simp [mroLookup, hp, ih hrest]

theorem mroLookup_all_none (reg : Registry) (proto : Proto) (l : List String)
    (h : ∀ t2 ∈ l, regFind reg (t2, proto) = Option.none) :
    mroLookup reg proto l = Option.none := by
  induction l with
  | nil => rfl
  | cons p rest ih =>
    have hp : regFind reg (p, proto) = Option.none := h p (by simp)
    have hrest : ∀ t2 ∈ rest, regFind reg (t2, proto) = Option.none :=
      fun t2 ht => h t2 (by simp [ht])
    simp [mroLookup, hp, ih hrest]

theorem mapMQuote_append_ok (f : PyVal → Except PyErr Str) (xs ys : List PyVal)
    (y : PyVal) (qx qy : List Str) (q : Str)
    (hx : mapMQuote f xs = .ok qx) (hy : mapMQuote f ys = .ok qy)
    (hq : f y = .ok q) :
    mapMQuote f (xs ++ y :: ys) = .ok (qx ++ q :: qy) := by
  induction xs generalizing qx with
  | nil =>
    simp only [mapMQuote] at hx
    cases hx
    simp [mapMQuote, hq, hy]
  | cons x rest ih =>
    simp only [mapMQuote] at hx
    cases hfx : f x with
    | error e => rw [hfx] at hx; cases hx
    | ok qv =>
      rw [hfx] at hx
      cases hrest : mapMQuote f rest with
      | error e => rw [hrest] at hx; cases hx
      | ok qs =>
        rw [hrest] at hx
        cases hx
        simp [mapMQuote, hfx, ih qs hrest]

theorem int_getquoted_eq (env : Env) (conn : Option Conn) (w : PyVal) :
    Int.getquoted env conn w =
      .ok (ensure_bytes env conn
        (.bytes (if startswithDash (pyStr w) then ' ' :: pyStr w else pyStr w))) := rfl

theorem long_getquoted_eq (env : Env) (conn : Option Conn) (w : PyVal) :
    Long.getquoted env conn w =
      .ok (ensure_bytes env conn
        (.bytes (if startswithDash (pyStr w) then ' ' :: pyStr w else pyStr w))) := rfl

/-! Claim theorems. -/

/-- C10: the `Int` and `Long` formatters are extensionally equal — for
every wrapped value and every connection binding, `Int.getquoted` and
`Long.getquoted` produce identical bytes. -/
theorem int_long_formatters_agree (env : Env) (conn : Option Conn) (w : PyVal) :
    Int.getquoted env conn w = Long.getquoted env conn w := rfl

/-- C2: for every negative integer, float or decimal whose rendered
literal begins with `-`, `getquoted()` yields a byte string whose first
character is a single space and whose second character is `-`; for a
value whose rendered literal does not begin with `-`, no space is
prepended (the output is the rendered literal itself). -/
theorem sign_space_rule :
    (∀ (env : Env) (conn : Option Conn) (i : Int), i < 0 →
      Int.getquoted env conn (.int i) = .ok (' ' :: '-' :: natDigits i.natAbs)) ∧
    (∀ (env : Env) (conn : Option Conn) (i : Int), 0 ≤ i →
      Int.getquoted env conn (.int i) = .ok (natDigits i.toNat)) ∧
    (∀ (env : Env) (conn : Option Conn) (i : Int), i < 0 →
      Long.getquoted env conn (.long i) = .ok (' ' :: '-' :: natDigits i.natAbs)) ∧
    (∀ (env : Env) (conn : Option Conn) (i : Int), 0 ≤ i →
      Long.getquoted env conn (.long i) = .ok (natDigits i.toNat)) ∧
    (∀ (env : Env) (conn : Option Conn) (t : Str),
      Float.getquoted env conn (.float (.finite ('-' :: t))) =
        .ok (' ' :: '-' :: t)) ∧
    (∀ (env : Env) (conn : Option Conn) (r : Str), startswithDash r = false →
      Float.getquoted env conn (.float (.finite r)) = .ok r) ∧
    (∀ (env : Env) (conn : Option Conn) (d : PyDecimal) (t : Str),
      d.is_finite = true → d.str = '-' :: t →
      Decimal.getquoted env conn (.dec d) = .ok (' ' :: '-' :: t)) ∧
    (∀ (env : Env) (conn : Option Conn) (d : PyDecimal),
      d.is_finite = true → startswithDash d.str = false →
      Decimal.getquoted env conn (.dec d) = .ok d.str) := by
  refine ⟨?_, ?_, ?_, ?_, ?_, ?_, ?_, ?_⟩
  · intro env conn i h
    rw [int_getquoted_eq]
    have e1 : pyStr (.int i) = '-' :: natDigits i.natAbs := intStr_neg i h
    rw [e1]
    rw [show startswithDash ('-' :: natDigits i.natAbs) = true from rfl]
    simp [ensure_bytes_bytes]
  · intro env conn i h
    rw [int_getquoted_eq]
    have e1 : pyStr (.int i) = natDigits i.toNat := intStr_nonneg i h
    rw [e1, startswithDash_natDigits]
    simp [ensure_bytes_bytes]
  · intro env conn i h
    rw [long_getquoted_eq]
    have e1 : pyStr (.long i) = '-' :: natDigits i.natAbs := intStr_neg i h
    rw [e1]
    rw [show startswithDash ('-' :: natDigits i.natAbs) = true from rfl]
    simp [ensure_bytes_bytes]
  · intro env conn i h
    rw [long_getquoted_eq]
    have e1 : pyStr (.long i) = natDigits i.toNat := intStr_nonneg i h
    rw [e1, startswithDash_natDigits]
    simp [ensure_bytes_bytes]
  · intro env conn t
    show Except.ok (ensure_bytes env conn (.bytes (' ' :: '-' :: t))) = _
    rw [ensure_bytes_bytes]
  · intro env conn r h
    show Except.ok (ensure_bytes env conn
      (.bytes (if startswithDash r then ' ' :: r else r))) = _
    rw [h]
    simp [ensure_bytes_bytes]
  · intro env conn d t hfin hstr
    simp only [Decimal.getquoted, hfin, if_true, hstr]
    rw [show startswithDash ('-' :: t) = true from rfl]
    simp [ensure_bytes_bytes]
  · intro env conn d hfin hstr
    simp only [Decimal.getquoted, hfin, if_true, hstr]
    simp [ensure_bytes_bytes]

/-- C2 witness: the sign-space rule at concrete inputs. -/
theorem sign_space_rule_witness :
    ((-7 : Int) < 0 ∧
      Int.getquoted envTriv Option.none (.int (-7)) =
        .ok (' ' :: '-' :: natDigits (Int.natAbs (-7)))) ∧
    ((0 : Int) ≤ 42 ∧
      Long.getquoted envTriv Option.none (.long 42) =
        .ok (natDigits (Int.toNat 42))) ∧
    (Decimal.getquoted envTriv Option.none
        (.dec ⟨true, bstr "-1.5"⟩) = .ok (bstr " -1.5")) := by
  refine ⟨⟨by decide, sign_space_rule.1 envTriv Option.none (-7) (by decide)⟩,
    ⟨by decide, sign_space_rule.2.2.2.1 envTriv Option.none 42 (by decide)⟩, ?_⟩
  have h := sign_space_rule.2.2.2.2.2.2.1 envTriv Option.none
    ⟨true, bstr "-1.5"⟩ (bstr "1.5") rfl rfl
  simpa using h

/-- C4: `Float.getquoted` maps NaN to exactly `'NaN'::float`, positive
infinity to `'Infinity'::float` and negative infinity to
`'-Infinity'::float`, for every environment and connection binding and
independently of the finite-float rendering; a finite float emits its
(shortest round-trip) `repr` with the sign-space rule, routed through
the connection-or-fallback byte conversion `_ensure_bytes`. -/
theorem float_special_values :
    (∀ (env : Env) (conn : Option Conn),
      Float.getquoted env conn (.float .nan) = .ok (bstr "'NaN'::float")) ∧
    (∀ (env : Env) (conn : Option Conn),
      Float.getquoted env conn (.float (.inf true)) =
        .ok (bstr "'Infinity'::float")) ∧
    (∀ (env : Env) (conn : Option Conn),
      Float.getquoted env conn (.float (.inf false)) =
        .ok (bstr "'-Infinity'::float")) ∧
    (∀ (env : Env) (conn : Option Conn) (r : Str),
      Float.getquoted env conn (.float (.finite r)) =
        .ok (ensure_bytes env conn
          (.bytes (if startswithDash r then ' ' :: r else r)))) :=
  ⟨fun _ _ => rfl, fun _ _ => rfl, fun _ _ => rfl, fun _ _ _ => rfl⟩

/-- C8: `Decimal.getquoted` emits, for every finite decimal, its
canonical string form with the sign-space rule through the
connection-or-fallback byte conversion, and for every non-finite
decimal the verbatim bytes `'NaN'::numeric`. -/
theorem decimal_finite_and_nan :
    (∀ (env : Env) (conn : Option Conn) (d : PyDecimal), d.is_finite = true →
      Decimal.getquoted env conn (.dec d) =
        .ok (ensure_bytes env conn
          (.bytes (if startswithDash d.str then ' ' :: d.str else d.str)))) ∧
    (∀ (env : Env) (conn : Option Conn) (d : PyDecimal), d.is_finite = false →
      Decimal.getquoted env conn (.dec d) = .ok (bstr "'NaN'::numeric")) := by
  constructor
  · intro env conn d h
    simp [Decimal.getquoted, h]
  · intro env conn d h
    simp [Decimal.getquoted, h]

/-- C8 witness: a finite and a non-finite decimal at concrete inputs. -/
theorem decimal_finite_and_nan_witness :
    Decimal.getquoted envTriv Option.none (.dec ⟨true, bstr "1.5"⟩) =
      .ok (bstr "1.5") ∧
    Decimal.getquoted envTriv Option.none (.dec ⟨false, bstr "NaN"⟩) =
      .ok (bstr "'NaN'::numeric") := by
  constructor
  · have h := decimal_finite_and_nan.1 envTriv Option.none ⟨true, bstr "1.5"⟩ rfl
    simpa using h
  · exact decimal_finite_and_nan.2 envTriv Option.none ⟨false, bstr "NaN"⟩ rfl

/-- C6: string and binary literals are wrapped in `E'...'` exactly when
the bound connection reports `_equote`, and in plain `'...'` when the
connection reports standard mode or no connection is bound; the binary
formatter appends `::bytea` in both cases. -/
theorem equote_wrapping :
    (∀ (env : Env) (c : Conn) (sv : PyStr),
      QuotedString.getquoted env (some c) (.pystr sv) =
        .ok ((if c.equote then bstr "E'" else bstr "'") ++
          qsEscapedPayload env (some c) (c.ensure_bytes sv) ++ bstr "'")) ∧
    (∀ (env : Env) (sv : PyStr),
      QuotedString.getquoted env Option.none (.pystr sv) =
        .ok (bstr "'" ++
          qsEscapedPayload env Option.none (utilEnsureBytes env sv) ++ bstr "'")) ∧
    (∀ (env : Env) (c : Conn) (s : Str),
      Binary.getquoted env (some c) (.pystr (.bytes s)) =
        .ok ((if c.equote then bstr "E'" else bstr "'") ++
          byteaPayload env (some c) s ++ bstr "'::bytea")) ∧
    (∀ (env : Env) (s : Str),
      Binary.getquoted env Option.none (.pystr (.bytes s)) =
        .ok (bstr "'" ++ byteaPayload env Option.none s ++ bstr "'::bytea")) := by
  refine ⟨?_, ?_, ?_, ?_⟩
  · intro env c sv
    cases hc : c.equote <;>
      simp [QuotedString.getquoted, equoteOf, hc, ensure_bytes]
  · intro env sv
    simp [QuotedString.getquoted, equoteOf, ensure_bytes]
  · intro env c s
    cases hc : c.equote <;> simp [Binary.getquoted, equoteOf, hc]
  · intro env s
    simp [Binary.getquoted, equoteOf]

/-- C5: the source receives the error code of `PQescapeStringConn` into
a fresh `c_int` and never reads it — even when the connection-aware
escape reports a non-zero error code, `QuotedString.getquoted`
succeeds and returns a quoted literal built from the escape buffer,
rather than raising.  This contradicts the claimed `EscapeFailure`. -/
theorem escape_error_code_ignored (env : Env) (c : Conn) (sv : PyStr)
    (hver : 0x080104 ≤ env.pgVersion)
    (herr : (c.escapeStringConn (c.ensure_bytes sv)).2 ≠ 0) :
    QuotedString.getquoted env (some c) (.pystr sv) =
      .ok ((if c.equote then bstr "E'" else bstr "'") ++
        (c.escapeStringConn (c.ensure_bytes sv)).1 ++ bstr "'") := by
  cases hc : c.equote <;>
    simp [QuotedString.getquoted, equoteOf, hc, ensure_bytes,
      qsEscapedPayload, hver]

/-- C5 witness: a connection whose escape function reports error code 1
on input `abc` still yields the literal `'BAD'` built from the buffer. -/
theorem escape_error_code_ignored_witness :
    (0x080104 ≤ envTriv.pgVersion ∧
      (connErr.escapeStringConn
        (connErr.ensure_bytes (.bytes (bstr "abc")))).2 ≠ 0) ∧
    QuotedString.getquoted envTriv (some connErr) (.pystr (.bytes (bstr "abc"))) =
      .ok (bstr "'BAD'") := by
  refine ⟨⟨by decide, by decide⟩, ?_⟩
  have h := escape_error_code_ignored envTriv connErr (.bytes (bstr "abc"))
    (by decide) (by decide)
  simpa using h

/-- C1: `adapt(value, proto)` first invokes a present `__conform__` hook
and returns its result directly; otherwise it looks up
`(type(value), proto)` in the registry; on a miss it walks
`mro()[1:]` most-derived first and returns the first registered match
instantiated on the value; and with no match anywhere it raises a
`ProgrammingError` whose message names the offending type. -/
theorem adapt_dispatch :
    (∀ (reg : Registry) (t : PyType) (f : Proto → AdapterClass × PyVal)
        (proto : Proto),
      adapt reg (.obj t (some f)) proto = .ok (f proto)) ∧
    (∀ (reg : Registry) (v : PyVal) (proto : Proto) (c : AdapterClass),
      conformOf v proto = Option.none →
      regFind reg ((typeOf v).name, proto) = some c →
      adapt reg v proto = .ok (c, v)) ∧
    (∀ (reg : Registry) (v : PyVal) (proto : Proto) (c : AdapterClass)
        (pre : List String) (ty : String) (post : List String),
      conformOf v proto = Option.none →
      regFind reg ((typeOf v).name, proto) = Option.none →
      (typeOf v).mro.tail = pre ++ ty :: post →
      (∀ t2 ∈ pre, regFind reg (t2, proto) = Option.none) →
      regFind reg (ty, proto) = some c →
      adapt reg v proto = .ok (c, v)) ∧
    (∀ (reg : Registry) (v : PyVal) (proto : Proto),
      conformOf v proto = Option.none →
      regFind reg ((typeOf v).name, proto) = Option.none →
      (∀ t2 ∈ (typeOf v).mro.tail, regFind reg (t2, proto) = Option.none) →
      adapt reg v proto =
        .error (.programmingError
          (bstr ("can't adapt type '" ++ (typeOf v).name ++ "'")))) := by
  refine ⟨?_, ?_, ?_, ?_⟩
  · intro reg t f proto
    simp [adapt, conformOf]
  · intro reg v proto c h1 h2
    simp [adapt, h1, h2]
  · intro reg v proto c pre ty post h1 h2 h3 h4 h5
    simp [adapt, h1, h2, h3, mroLookup_first reg proto pre ty post c h4 h5]
  · intro reg v proto h1 h2 h3
    simp [adapt, h1, h2, mroLookup_all_none reg proto _ h3]

/-- C1 witness: an instance of an unregistered subclass of `int` (no
conform hook) dispatches to the `Int` formatter through the ancestor
walk of the default registry. -/
theorem adapt_dispatch_witness :
    adapt defaultRegistry
        (.obj ⟨"MyInt", ["MyInt", "int", "object"]⟩ Option.none) .isqlquote =
      .ok (.intC, .obj ⟨"MyInt", ["MyInt", "int", "object"]⟩ Option.none) :=
  adapt_dispatch.2.2.1 defaultRegistry
    (.obj ⟨"MyInt", ["MyInt", "int", "object"]⟩ Option.none) .isqlquote .intC
    [] "int" ["object"] rfl (by decide) rfl (by simp) (by decide)

/-- C3: `None` is turned into the literal `NULL` before any registry
dispatch — for every registry (including ones registering a `NoneType`
formatter) and every connection binding — and a `None` element nested
inside a sequence likewise contributes the literal `NULL` to the
`ARRAY[...]` rendering. -/
theorem none_short_circuits :
    (∀ (fuel : Nat) (env : Env) (reg : Registry) (conn : Option Conn),
      pyGetquoted (fuel + 1) env reg conn .none = .ok (bstr "NULL")) ∧
    (∀ (g : Nat) (env : Env) (conn : Option Conn) (xs ys : List PyVal)
        (qx qy : List Str),
      mapMQuote (pyGetquoted (g + 1) env defaultRegistry conn) xs = .ok qx →
      mapMQuote (pyGetquoted (g + 1) env defaultRegistry conn) ys = .ok qy →
      pyGetquoted (g + 2) env defaultRegistry conn
          (.list (xs ++ .none :: ys)) =
        .ok (bstr "ARRAY[" ++ joinComma (qx ++ bstr "NULL" :: qy) ++ bstr "]")) := by
  constructor
  · intro fuel env reg conn
    rfl
  · intro g env conn xs ys qx qy hx hy
    have step : pyGetquoted (g + 2) env defaultRegistry conn
        (.list (xs ++ .none :: ys)) =
      List.getquotedF (pyGetquoted (g + 1) env defaultRegistry conn)
        (xs ++ .none :: ys) := rfl
    rw [step]
    have hnull : pyGetquoted (g + 1) env defaultRegistry conn .none =
      .ok (bstr "NULL") := rfl
    have hmap := mapMQuote_append_ok
      (pyGetquoted (g + 1) env defaultRegistry conn) xs ys .none qx qy
      (bstr "NULL") hx hy hnull
    have hne : ¬(xs ++ PyVal.none :: ys).length = 0 := by simp
    simp only [List.getquotedF, if_neg hne, hmap]

/-- C3 witness: a sequence holding a single `None` renders as
`ARRAY[NULL]`. -/
theorem none_short_circuits_witness :
    pyGetquoted 2 envTriv defaultRegistry Option.none (.list [.none]) =
      .ok (bstr "ARRAY[" ++ joinComma ([] ++ bstr "NULL" :: []) ++ bstr "]") :=
  none_short_circuits.2 0 envTriv Option.none [] [] [] [] rfl rfl

/-- C7: the sequence formatter yields the quoted literal bytes for
an empty sequence, and for a non-empty sequence yields
`ARRAY[e1, e2, ...]` where every element is produced by the full
adaptation pipeline (`_getquoted`: conform/registry/ancestor dispatch,
the guarded `prepare` bind, then `getquoted`) against the same
connection, joined by a comma and space in sequence order. -/
theorem list_formatter_array :
    (∀ (fuel : Nat) (env : Env) (conn : Option Conn),
      pyGetquoted (fuel + 1) env defaultRegistry conn (.list []) =
        .ok (bstr "'\x7b\x7d'")) ∧
    (∀ (fuel : Nat) (env : Env) (conn : Option Conn) (xs : List PyVal),
      xs ≠ [] →
      pyGetquoted (fuel + 1) env defaultRegistry conn (.list xs) =
        match mapMQuote (pyGetquoted fuel env defaultRegistry conn) xs with
        | .error e => .error e
        | .ok qs => .ok (bstr "ARRAY[" ++ joinComma qs ++ bstr "]")) := by
  constructor
  · intro fuel env conn
    rfl
  · intro fuel env conn xs hne
    have step : pyGetquoted (fuel + 1) env defaultRegistry conn (.list xs) =
      List.getquotedF (pyGetquoted fuel env defaultRegistry conn) xs := rfl
    rw [step]
    have hlen : ¬xs.length = 0 := by
      simpa [List.length_eq_zero] using hne
    simp only [List.getquotedF, if_neg hlen]

/-- C7 witness: the two-element sequence `[1, -2]` renders as
`ARRAY[1,  -2]` (sign-space rule applied to the negative element). -/
theorem list_formatter_array_witness :
    pyGetquoted 2 envTriv defaultRegistry Option.none
        (.list [.int 1, .int (-2)]) =
      match mapMQuote (pyGetquoted 1 envTriv defaultRegistry Option.none)
          [.int 1, .int (-2)] with
      | .error e => .error e
      | .ok qs => .ok (bstr "ARRAY[" ++ joinComma qs ++ bstr "]") :=
  list_formatter_array.2 1 envTriv Option.none [.int 1, .int (-2)] (by simp)

/-- C9 counterexample: `Date(2001, 13, 1)` propagates the calendar
constructor's `ValueError` — the raised exception is not a
`DataError`, contrary to the claim. -/
theorem temporal_month13_valueerror :
    Date 2001 13 1 = .error (.valueError (bstr "month must be in 1..12")) ∧
    isDataErrT (Date 2001 13 1) = false :=
  ⟨rfl, rfl⟩

/-- C9 (amended): the temporal construction helpers validate their
components via the underlying calendar construction and reject
out-of-range components (e.g. month 13), but the rejection is the
calendar library's `ValueError` propagating unhandled — no helper ever
raises a `DataError`. -/
theorem temporal_helpers_reject_invalid :
    (∀ y m d : Int, isDataErrT (Date y m d) = false) ∧
    (∀ (h mi s : Int) (tz : Option String), isDataErrT (Time h mi s tz) = false) ∧
    (∀ (y mo d h mi s : Int) (tz : Option String),
      isDataErrT (Timestamp y mo d h mi s tz) = false) ∧
    (∀ y m d : Int, 1 ≤ y → y ≤ 9999 → (m < 1 ∨ 12 < m) →
      Date y m d = .error (.valueError (bstr "month must be in 1..12"))) ∧
    (∀ (h mi s : Int) (tz : Option String), h < 0 ∨ 23 < h →
      Time h mi s tz = .error (.valueError (bstr "hour must be in 0..23"))) ∧
    (∀ (y mo d h mi s : Int) (tz : Option String),
      1 ≤ y → y ≤ 9999 → (mo < 1 ∨ 12 < mo) →
      Timestamp y mo d h mi s tz =
        .error (.valueError (bstr "month must be in 1..12"))) ∧
    (∀ y m d : Int, 1 ≤ y → y ≤ 9999 → 1 ≤ m → m ≤ 12 → 1 ≤ d →
      d ≤ daysInMonth y m → Date y m d = .ok (.dateT y m d)) := by
  refine ⟨?_, ?_, ?_, ?_, ?_, ?_, ?_⟩
  · intro y m d
    unfold Date datetimeDate isDataErrT
    split_ifs <;> rfl
  · intro h mi s tz
    unfold Time datetimeTime isDataErrT
    split_ifs <;> rfl
  · intro y mo d h mi s tz
    unfold Timestamp datetimeDate datetimeTime isDataErrT
    split_ifs <;> rfl
  · intro y m d hy1 hy2 hm
    have h1 : ¬(y < 1 ∨ 9999 < y) := by omega
    simp [Date, datetimeDate, h1, hm]
  · intro h mi s tz hh
    simp [Time, datetimeTime, hh]
  · intro y mo d h mi s tz hy1 hy2 hm
    have h1 : ¬(y < 1 ∨ 9999 < y) := by omega
    simp [Timestamp, datetimeDate, h1, hm]
  · intro y m d hy1 hy2 hm1 hm2 hd1 hd2
    have h1 : ¬(y < 1 ∨ 9999 < y) := by omega
    have h2 : ¬(m < 1 ∨ 12 < m) := by omega
    have h3 : ¬(d < 1 ∨ daysInMonth y m < d) := by omega
    simp [Date, datetimeDate, h1, h2, h3]

/-- C9 witness: a month-0 date is rejected with the calendar
`ValueError`, and a valid date constructs. -/
theorem temporal_helpers_reject_invalid_witness :
    Date 1999 0 5 = .error (.valueError (bstr "month must be in 1..12")) ∧
    Date 1999 12 31 = .ok (.dateT 1999 12 31) :=
  ⟨temporal_helpers_reject_invalid.2.2.2.1 1999 0 5 (by decide) (by decide)
      (by decide),
    temporal_helpers_reject_invalid.2.2.2.2.2.2 1999 12 31 (by decide)
      (by decide) (by decide) (by decide) (by decide) (by decide)⟩

end PsycoAdapters
